import Mathlib

/-!
Verification development for the stockvalue-exporter core
(cache, symbol classifier, asset-handler strategy set, metrics factory).

Each definition is a shallow embedding of the corresponding Python
source in `app/`: `cache.py` (LRUCache), `symbol_classifier.py`
(SymbolClassifier / AssetType), `asset_handler.py` (handler strategies
and AssetHandlerFactory) and `metrics_factory.py` (MetricsFactory).
Machine timestamps are modelled as integers; Python dict / OrderedDict
state is modelled as association lists in insertion (recency) order.
-/

namespace StockValue

/-! ## String helpers

Executable embeddings of the Python string operations used by the
source: `str.endswith`, `str.startswith` and the substring test
`pat in s`. They work on the character list of the string so that
every theorem about them can be settled by kernel evaluation. -/

def charsHavePre : List Char → List Char → Bool
  | [], _ => true
  | _ :: _, [] => false
  | a :: as, b :: bs => a == b && charsHavePre as bs

def charsContain (l pat : List Char) : Bool :=
  match l with
  | [] => pat.isEmpty
  | _ :: rest => charsHavePre pat l || charsContain rest pat

def strContains (s pat : String) : Bool :=
  charsContain s.toList pat.toList

def strEndsWith (s pat : String) : Bool :=
  charsHavePre pat.toList.reverse s.toList.reverse

def strStartsWith (s pat : String) : Bool :=
  charsHavePre pat.toList s.toList

/-! ## Cache (`app/cache.py`, class LRUCache)

`_cache : OrderedDict[str, dict]` is modelled as a list of
`(key, entry)` pairs in insertion/recency order: the head is the
least-recently-used entry, the last element the most-recently-used.
`time.time()` values are modelled as integer timestamps supplied as an
explicit `now` argument. -/

structure CacheEntry (α : Type) where
  value : α
  createdAt : Int
deriving DecidableEq, Repr

structure LRUCache (α : Type) where
  maxSize : Nat
  ttlSeconds : Int
  entries : List (String × CacheEntry α)
deriving DecidableEq, Repr

/-- Default of `config.CACHE_MAX_SIZE` (`app/config.py`). -/
def cacheMaxSizeDefault : Nat := 100

/-- Default of `config.CACHE_TTL_SECONDS` (`app/config.py`). -/
def cacheTtlSecondsDefault : Int := 600

/-- Embedding of `LRUCache.__init__`: `max_size or config.CACHE_MAX_SIZE` — a falsy
argument (`None` or `0`) falls back to the configured default, and the
same for `ttl_seconds`. -/
def LRUCache.init (α : Type) (maxSize : Option Nat) (ttlSeconds : Option Int) :
    LRUCache α :=
  { maxSize :=
      match maxSize with
      | none => cacheMaxSizeDefault
      | some 0 => cacheMaxSizeDefault
      | some n => n
    ttlSeconds :=
      match ttlSeconds with
      | none => cacheTtlSecondsDefault
      | some t => if t = 0 then cacheTtlSecondsDefault else t
    entries := [] }

variable {α : Type}

/-- Lookup of `self._cache[key]` (first — and only — entry of the key). -/
def LRUCache.findEntry (c : LRUCache α) (key : String) : Option (CacheEntry α) :=
  (c.entries.find? (fun p => p.1 == key)).map (fun p => p.2)

/-- Embedding of `key in self._cache`. -/
def LRUCache.containsKey (c : LRUCache α) (key : String) : Bool :=
  (c.entries.find? (fun p => p.1 == key)).isSome

/-- Embedding of `LRUCache._is_expired`: absent keys count as expired, otherwise
`time.time() - created_at > self.ttl_seconds`. -/
def LRUCache.isExpired (c : LRUCache α) (key : String) (now : Int) : Bool :=
  match c.findEntry key with
  | none => true
  | some e => decide (now - e.createdAt > c.ttlSeconds)

/-- Embedding of `LRUCache._remove`: `del self._cache[key]` (no-op when absent). -/
def LRUCache.removeKey (c : LRUCache α) (key : String) : LRUCache α :=
  { c with entries := c.entries.filter (fun p => p.1 != key) }

/-- Embedding of `OrderedDict.move_to_end(key)`: the entry of `key` moves to the
most-recently-used (last) position; no-op when the key is absent. -/
def LRUCache.moveToEnd (c : LRUCache α) (key : String) : LRUCache α :=
  match c.entries.find? (fun p => p.1 == key) with
  | none => c
  | some p => { c with entries := c.entries.filter (fun q => q.1 != key) ++ [p] }

/-- Embedding of `self._cache[key] = {"value": value, "created_at": t}` on an existing
key: the entry is replaced in place (position kept). -/
def LRUCache.updateEntry (c : LRUCache α) (key : String) (e : CacheEntry α) :
    LRUCache α :=
  { c with entries := c.entries.map (fun p => if p.1 == key then (key, e) else p) }

/-- Embedding of `LRUCache._evict_lru`: delete the first (least-recently-used) entry;
no-op on an empty cache. -/
def LRUCache.evictLRU (c : LRUCache α) : LRUCache α :=
  match c.entries with
  | [] => c
  | p :: _ => c.removeKey p.1

/-- Embedding of `LRUCache.size`: `len(self._cache)`, the raw stored-entry count. -/
def LRUCache.size (c : LRUCache α) : Nat :=
  c.entries.length

/-- Embedding of `LRUCache.get`: miss on absent key; lazy expiry (remove and miss) on
an expired key; otherwise move to most-recently-used and return the
stored value. Returns the result together with the updated cache. -/
def LRUCache.get (c : LRUCache α) (key : String) (now : Int) :
    Option α × LRUCache α :=
  if c.containsKey key then
    if c.isExpired key now then (none, c.removeKey key)
    else
      let c' := c.moveToEnd key
      ((c'.findEntry key).map (fun e => e.value), c')
  else (none, c)

/-- Embedding of `LRUCache.put`: overwrite-and-refresh on an existing key; otherwise
evict the least-recently-used entry when at capacity, then append. -/
def LRUCache.put (c : LRUCache α) (key : String) (value : α) (now : Int) :
    LRUCache α :=
  if c.containsKey key then
    (c.updateEntry key { value := value, createdAt := now }).moveToEnd key
  else
    let c₁ := if c.entries.length ≥ c.maxSize then c.evictLRU else c
    { c₁ with entries := c₁.entries ++ [(key, { value := value, createdAt := now })] }

/-- A sequence of `put` operations, applied in order. -/
def LRUCache.runPuts (c : LRUCache α) : List (String × α × Int) → LRUCache α
  | [] => c
  | (k, v, t) :: ops => (c.put k v t).runPuts ops

/-! ## Classifier (`app/symbol_classifier.py`) -/

inductive AssetType where
  | stock
  | forex
  | index
  | crypto
deriving DecidableEq, BEq, Repr

/-- Embedding of `SymbolClassifier._KNOWN_CRYPTOCURRENCIES`. -/
def knownCryptocurrencies : List String :=
  ["BTC-USD", "ETH-USD", "ADA-USD", "XRP-USD", "SOL-USD", "DOGE-USD",
   "DOT-USD", "MATIC-USD", "LTC-USD", "BCH-USD", "LINK-USD", "XLM-USD",
   "ALGO-USD", "ATOM-USD", "AVAX-USD"]

/-- Embedding of `SymbolClassifier._KNOWN_JAPANESE_INDICES`. -/
def knownJapaneseIndices : List String :=
  ["998405.T"]

/-- Embedding of `SymbolClassifier.is_forex_pair`: `symbol.endswith("=X")`. -/
def is_forex_pair (symbol : String) : Bool :=
  strEndsWith symbol "=X"

/-- Embedding of `SymbolClassifier.is_index`: `symbol.startswith("^")` or membership
in the known Japanese index set. -/
def is_index (symbol : String) : Bool :=
  if strStartsWith symbol "^" then true
  else knownJapaneseIndices.contains symbol

/-- Embedding of `SymbolClassifier.is_crypto`: membership in the known
cryptocurrency set. -/
def is_crypto (symbol : String) : Bool :=
  knownCryptocurrencies.contains symbol

/-- Embedding of `SymbolClassifier.get_asset_type`: fixed precedence
forex, then index, then crypto, default stock. -/
def get_asset_type (symbol : String) : AssetType :=
  if is_forex_pair symbol then .forex
  else if is_index symbol then .index
  else if is_crypto symbol then .crypto
  else .stock

/-! ## Handler strategy set (`app/asset_handler.py`)

Each concrete handler class is a constant record of its method
results (every handler method of the source is a constant function). -/

structure AssetHandler where
  price_metric_key : String
  volume_metric_key : Option String
  market_cap_metric_key : Option String
  range_metric_keys : String × String
  change_metric_keys : String × String × String
  timestamp_metric_key : String
  error_metric_key : String
  update_volume : Bool
  update_market_metrics : Bool
deriving DecidableEq, Repr

/-- Embedding of `StockHandler`. -/
def stockHandler : AssetHandler :=
  { price_metric_key := "financial_price"
    volume_metric_key := some "financial_volume"
    market_cap_metric_key := some "financial_market_cap"
    range_metric_keys := ("financial_52week_high", "financial_52week_low")
    change_metric_keys :=
      ("financial_previous_close", "financial_price_change",
       "financial_price_change_percent")
    timestamp_metric_key := "financial_last_updated"
    error_metric_key := "financial_fetch_errors"
    update_volume := true
    update_market_metrics := true }

/-- Embedding of `ForexHandler`: no volume, no market cap, no market metrics. -/
def forexHandler : AssetHandler :=
  { price_metric_key := "financial_price"
    volume_metric_key := none
    market_cap_metric_key := none
    range_metric_keys := ("financial_52week_high", "financial_52week_low")
    change_metric_keys :=
      ("financial_previous_close", "financial_price_change",
       "financial_price_change_percent")
    timestamp_metric_key := "financial_last_updated"
    error_metric_key := "financial_fetch_errors"
    update_volume := false
    update_market_metrics := false }

/-- Embedding of `IndexHandler`: volume present, no market cap, no market metrics. -/
def indexHandler : AssetHandler :=
  { price_metric_key := "financial_price"
    volume_metric_key := some "financial_volume"
    market_cap_metric_key := none
    range_metric_keys := ("financial_52week_high", "financial_52week_low")
    change_metric_keys :=
      ("financial_previous_close", "financial_price_change",
       "financial_price_change_percent")
    timestamp_metric_key := "financial_last_updated"
    error_metric_key := "financial_fetch_errors"
    update_volume := true
    update_market_metrics := false }

/-- Embedding of `CryptoHandler`. -/
def cryptoHandler : AssetHandler :=
  { price_metric_key := "financial_price"
    volume_metric_key := some "financial_volume"
    market_cap_metric_key := some "financial_market_cap"
    range_metric_keys := ("financial_52week_high", "financial_52week_low")
    change_metric_keys :=
      ("financial_previous_close", "financial_price_change",
       "financial_price_change_percent")
    timestamp_metric_key := "financial_last_updated"
    error_metric_key := "financial_fetch_errors"
    update_volume := true
    update_market_metrics := true }

/-- Embedding of `AssetHandlerFactory._handlers`. -/
def handlersTable : List (AssetType × AssetHandler) :=
  [(.stock, stockHandler), (.forex, forexHandler),
   (.index, indexHandler), (.crypto, cryptoHandler)]

/-- Printed form of an `AssetType`, as Python renders the enum member in
the `ValueError` message. -/
def assetTypeRepr : AssetType → String
  | .stock => "AssetType.STOCK"
  | .forex => "AssetType.FOREX"
  | .index => "AssetType.INDEX"
  | .crypto => "AssetType.CRYPTO"

/-- Argument of `AssetHandlerFactory.get_handler`: Python is
dynamically typed, so besides the four enum members any other runtime
value (carried here by its printed form) can be passed. -/
inductive DispatchArg where
  | known (t : AssetType)
  | unknown (printed : String)
deriving DecidableEq, Repr

/-- Embedding of `AssetHandlerFactory.get_handler`: dictionary membership test on
`_handlers`, `ValueError` for anything that is not a key. A value that
is not one of the four enum members is never a key of `_handlers`. -/
def get_handler : DispatchArg → Except String AssetHandler
  | .known t =>
    match handlersTable.lookup t with
    | some h => .ok h
    | none => .error ("Unsupported asset type: " ++ assetTypeRepr t)
  | .unknown printed => .error ("Unsupported asset type: " ++ printed)

/-! ## Metrics factory (`app/metrics_factory.py`)

The declarative configuration table `DEFAULT_METRICS_CONFIG`, the
feature-flag predicate `_should_create_metric`, the construction pass
`_create_metrics`, and the lifecycle operations. A Prometheus
instrument is modelled by a fresh identity number plus its wire name
and kind; the collector registry is the list of registered identities. -/

inductive MetricKind where
  | gauge
  | counter
  | histogram
deriving DecidableEq, Repr

structure MetricDefinition where
  name : String
  description : String
  labels : List String
  key : String
deriving DecidableEq, Repr

structure MetricsConfig where
  gauges : List MetricDefinition
  counters : List MetricDefinition
  histograms : List MetricDefinition
deriving DecidableEq, Repr

/-- Embedding of `MetricsFactory.DEFAULT_METRICS_CONFIG["gauges"]`. -/
def defaultGauges : List MetricDefinition :=
  [{ name := "stock_price_current", description := "Current stock price",
     labels := ["symbol", "name", "currency", "exchange"], key := "stock_price" },
   { name := "stock_volume_current", description := "Current stock volume",
     labels := ["symbol", "name", "exchange"], key := "stock_volume" },
   { name := "stock_market_cap", description := "Market capitalization",
     labels := ["symbol", "name", "exchange"], key := "stock_market_cap" },
   { name := "stock_pe_ratio", description := "Price to Earnings ratio",
     labels := ["symbol", "name", "exchange"], key := "stock_pe_ratio" },
   { name := "stock_dividend_yield", description := "Dividend yield percentage",
     labels := ["symbol", "name", "exchange"], key := "stock_dividend_yield" },
   { name := "stock_52week_high", description := "52 week high price",
     labels := ["symbol", "name", "exchange"], key := "stock_52week_high" },
   { name := "stock_52week_low", description := "52 week low price",
     labels := ["symbol", "name", "exchange"], key := "stock_52week_low" },
   { name := "stock_previous_close", description := "Previous day closing price",
     labels := ["symbol", "name", "exchange"], key := "stock_previous_close" },
   { name := "stock_price_change", description := "Price change from previous close",
     labels := ["symbol", "name", "exchange"], key := "stock_price_change" },
   { name := "stock_price_change_percent",
     description := "Price change percentage from previous close",
     labels := ["symbol", "name", "exchange"], key := "stock_price_change_percent" },
   { name := "stock_last_updated_timestamp", description := "Last updated timestamp",
     labels := ["symbol"], key := "stock_last_updated" },
   { name := "forex_rate_current", description := "Current forex exchange rate",
     labels := ["symbol", "name", "currency", "exchange"], key := "forex_rate" },
   { name := "forex_previous_close", description := "Previous day closing rate",
     labels := ["symbol", "name", "exchange"], key := "forex_previous_close" },
   { name := "forex_rate_change", description := "Rate change from previous close",
     labels := ["symbol", "name", "exchange"], key := "forex_rate_change" },
   { name := "forex_rate_change_percent",
     description := "Rate change percentage from previous close",
     labels := ["symbol", "name", "exchange"], key := "forex_rate_change_percent" },
   { name := "forex_52week_high", description := "52 week high rate",
     labels := ["symbol", "name", "exchange"], key := "forex_52week_high" },
   { name := "forex_52week_low", description := "52 week low rate",
     labels := ["symbol", "name", "exchange"], key := "forex_52week_low" },
   { name := "forex_last_updated_timestamp",
     description := "Last updated timestamp for forex",
     labels := ["symbol"], key := "forex_last_updated" },
   { name := "index_value_current", description := "Current index value",
     labels := ["symbol", "name", "currency", "exchange"], key := "index_value" },
   { name := "index_volume_current", description := "Current index volume",
     labels := ["symbol", "name", "exchange"], key := "index_volume" },
   { name := "index_previous_close", description := "Previous day closing value",
     labels := ["symbol", "name", "exchange"], key := "index_previous_close" },
   { name := "index_value_change", description := "Value change from previous close",
     labels := ["symbol", "name", "exchange"], key := "index_value_change" },
   { name := "index_value_change_percent",
     description := "Value change percentage from previous close",
     labels := ["symbol", "name", "exchange"], key := "index_value_change_percent" },
   { name := "index_52week_high", description := "52 week high value",
     labels := ["symbol", "name", "exchange"], key := "index_52week_high" },
   { name := "index_52week_low", description := "52 week low value",
     labels := ["symbol", "name", "exchange"], key := "index_52week_low" },
   { name := "index_last_updated_timestamp",
     description := "Last updated timestamp for index",
     labels := ["symbol"], key := "index_last_updated" },
   { name := "crypto_price_current", description := "Current cryptocurrency price",
     labels := ["symbol", "name", "currency", "exchange"], key := "crypto_price" },
   { name := "crypto_volume_current", description := "Current cryptocurrency volume",
     labels := ["symbol", "name", "exchange"], key := "crypto_volume" },
   { name := "crypto_market_cap", description := "Cryptocurrency market capitalization",
     labels := ["symbol", "name", "exchange"], key := "crypto_market_cap" },
   { name := "crypto_previous_close", description := "Previous day closing price",
     labels := ["symbol", "name", "exchange"], key := "crypto_previous_close" },
   { name := "crypto_price_change", description := "Price change from previous close",
     labels := ["symbol", "name", "exchange"], key := "crypto_price_change" },
   { name := "crypto_price_change_percent",
     description := "Price change percentage from previous close",
     labels := ["symbol", "name", "exchange"], key := "crypto_price_change_percent" },
   { name := "crypto_52week_high", description := "52 week high price",
     labels := ["symbol", "name", "exchange"], key := "crypto_52week_high" },
   { name := "crypto_52week_low", description := "52 week low price",
     labels := ["symbol", "name", "exchange"], key := "crypto_52week_low" },
   { name := "crypto_last_updated_timestamp",
     description := "Last updated timestamp for cryptocurrency",
     labels := ["symbol"], key := "crypto_last_updated" }]

/-- Embedding of `MetricsFactory.DEFAULT_METRICS_CONFIG["counters"]`. -/
def defaultCounters : List MetricDefinition :=
  [{ name := "stock_fetch_errors_total", description := "Total stock fetch errors",
     labels := ["symbol", "error_type"], key := "stock_fetch_errors" },
   { name := "forex_fetch_errors_total", description := "Total forex fetch errors",
     labels := ["symbol", "error_type"], key := "forex_fetch_errors" },
   { name := "index_fetch_errors_total", description := "Total index fetch errors",
     labels := ["symbol", "error_type"], key := "index_fetch_errors" },
   { name := "crypto_fetch_errors_total",
     description := "Total cryptocurrency fetch errors",
     labels := ["symbol", "error_type"], key := "crypto_fetch_errors" }]

/-- Embedding of `MetricsFactory.DEFAULT_METRICS_CONFIG["histograms"]`. -/
def defaultHistograms : List MetricDefinition :=
  [{ name := "stock_fetch_duration_seconds",
     description := "Time spent fetching stock data",
     labels := ["symbol"], key := "stock_fetch_duration" },
   { name := "forex_fetch_duration_seconds",
     description := "Time spent fetching forex data",
     labels := ["symbol"], key := "forex_fetch_duration" },
   { name := "index_fetch_duration_seconds",
     description := "Time spent fetching index data",
     labels := ["symbol"], key := "index_fetch_duration" },
   { name := "crypto_fetch_duration_seconds",
     description := "Time spent fetching cryptocurrency data",
     labels := ["symbol"], key := "crypto_fetch_duration" }]

def DEFAULT_METRICS_CONFIG : MetricsConfig :=
  { gauges := defaultGauges
    counters := defaultCounters
    histograms := defaultHistograms }

/-- The application configuration object as `_should_create_metric`
reads it via `getattr(self.app_config, flag, True)`: a `none` field
models an absent attribute (default `True`). -/
structure AppConfig where
  ENABLE_RANGE_METRICS : Option Bool
  ENABLE_DEBUG_METRICS : Option Bool
deriving DecidableEq, Repr

/-- Embedding of `MetricsFactory._should_create_metric`: everything is created when
no app config was given; 52-week range names are gated by
`ENABLE_RANGE_METRICS`; fetch-duration and fetch-error names (when not
range names) are gated by `ENABLE_DEBUG_METRICS`; everything else is
always created. -/
def should_create_metric (app_config : Option AppConfig)
    (metric_name : String) : Bool :=
  match app_config with
  | none => true
  | some cfg =>
    if strContains metric_name "52week_high" || strContains metric_name "52week_low" then
      cfg.ENABLE_RANGE_METRICS.getD true
    else if strContains metric_name "fetch_duration"
        || strContains metric_name "fetch_errors" then
      cfg.ENABLE_DEBUG_METRICS.getD true
    else true

structure MetricInstrument where
  instrumentId : Nat
  name : String
  kind : MetricKind
deriving DecidableEq, Repr

structure MetricsFactoryState where
  config : MetricsConfig
  app_config : Option AppConfig
  metrics : List (String × MetricInstrument)
  registered : List Nat
  nextId : Nat
deriving DecidableEq, Repr

/-- Python dict assignment `self.metrics[key] = metric`: replaces in
place when the key exists, otherwise appends. -/
def insertMetric (metrics : List (String × MetricInstrument)) (key : String)
    (m : MetricInstrument) : List (String × MetricInstrument) :=
  if (metrics.find? (fun p => p.1 == key)).isSome then
    metrics.map (fun p => if p.1 == key then (key, m) else p)
  else metrics ++ [(key, m)]

/-- One loop of `_create_metrics` over one section of the configuration
table: every definition passing `_should_create_metric` yields a fresh
instrument, registered with the collector and indexed by its key. -/
def createFrom (s : MetricsFactoryState) (kind : MetricKind) :
    List MetricDefinition → MetricsFactoryState
  | [] => s
  | d :: rest =>
    if should_create_metric s.app_config d.name then
      createFrom
        { s with
          metrics := insertMetric s.metrics d.key
            { instrumentId := s.nextId, name := d.name, kind := kind }
          registered := s.registered ++ [s.nextId]
          nextId := s.nextId + 1 }
        kind rest
    else createFrom s kind rest

/-- Embedding of `MetricsFactory._create_metrics`: gauges, then counters, then
histograms. -/
def create_metrics (s : MetricsFactoryState) : MetricsFactoryState :=
  let s₁ := createFrom s .gauge s.config.gauges
  let s₂ := createFrom s₁ .counter s₁.config.counters
  createFrom s₂ .histogram s₂.config.histograms

/-- Embedding of `MetricsFactory.__init__` on a fresh collector registry. -/
def metricsFactoryInit (config : MetricsConfig) (app_config : Option AppConfig) :
    MetricsFactoryState :=
  create_metrics
    { config := config, app_config := app_config,
      metrics := [], registered := [], nextId := 0 }

/-- Embedding of `MetricsFactory.get_metric`: `self.metrics.get(key)`. -/
def get_metric (s : MetricsFactoryState) (key : String) : Option MetricInstrument :=
  (s.metrics.find? (fun p => p.1 == key)).map (fun p => p.2)

/-- Embedding of `CollectorRegistry.unregister`: removes a registered collector,
raises `KeyError` when it is not registered. -/
def registryUnregister (registered : List Nat) (id : Nat) :
    Except Unit (List Nat) :=
  if registered.contains id then .ok (registered.filter (fun i => i != id))
  else .error ()

/-- Embedding of `MetricsFactory.unregister_all_metrics`: best-effort unregister of
every instrument (a `KeyError` — or any other error — is swallowed),
then `self.metrics.clear()`. -/
def unregister_all_metrics (s : MetricsFactoryState) : MetricsFactoryState :=
  { s with
    registered :=
      s.metrics.foldl
        (fun r p =>
          match registryUnregister r p.2.instrumentId with
          | .ok r' => r'
          | .error _ => r)
        s.registered
    metrics := [] }

/-- Embedding of `MetricsFactory.recreate_metrics`: unregister everything, then run
the construction pass again. -/
def recreate_metrics (s : MetricsFactoryState) : MetricsFactoryState :=
  create_metrics (unregister_all_metrics s)

/-! ## Association-list lemmas

Facts about `find?`, `filter` and `map` on the `(key, value)` lists
modelling Python dict / OrderedDict state. -/

theorem find?_filter_ne {β : Type} (l : List (String × β)) (k : String) :
    (l.filter (fun p => p.1 != k)).find? (fun p => p.1 == k) = none := by
  induction l with
  | nil => rfl
  | cons a l ih =>
    by_cases hb : a.1 = k
    · simp [List.filter_cons, hb, ih]
    · simp [List.filter_cons, hb, List.find?, ih]

theorem find?_append_of_none {β : Type} {l₁ l₂ : List β} {p : β → Bool}
    (h : l₁.find? p = none) : (l₁ ++ l₂).find? p = l₂.find? p := by
  induction l₁ with
  | nil => rfl
  | cons a l ih =>
    cases hb : p a with
    | true => simp [List.find?, hb] at h
    | false =>
      simp only [List.find?, hb] at h
      simpa [List.find?, hb] using ih h

theorem length_filter_lt_of_find? {β : Type} {l : List (String × β)} {k : String}
    (h : (l.find? (fun p => p.1 == k)).isSome = true) :
    (l.filter (fun p => p.1 != k)).length < l.length := by
  induction l with
  | nil => simp [List.find?] at h
  | cons a l ih =>
    cases hb : (a.1 == k) with
    | true =>
      simp only [List.filter_cons, hb, bne, Bool.not_true, if_neg Bool.false_ne_true,
        List.length_cons]
      exact Nat.lt_succ_of_le (List.length_filter_le _ _)
    | false =>
      simp only [List.find?, hb] at h
      simp only [List.filter_cons, hb, bne, Bool.not_false, if_pos rfl, List.length_cons]
      exact Nat.succ_lt_succ (ih h)

theorem find?_map_replace {β : Type} {l : List (String × β)} {k : String} (e : β)
    (h : (l.find? (fun p => p.1 == k)).isSome = true) :
    (l.map (fun p => if p.1 == k then (k, e) else p)).find? (fun p => p.1 == k) =
      some (k, e) := by
  induction l with
  | nil => simp [List.find?] at h
  | cons a l ih =>
    cases hb : (a.1 == k) with
    | true => simp [List.find?, hb]
    | false =>
      simp only [List.find?, hb] at h
      simpa [List.find?, hb] using ih h

theorem filter_map_replace {β : Type} (l : List (String × β)) (k : String) (e : β) :
    (l.map (fun p => if p.1 == k then (k, e) else p)).filter (fun p => p.1 != k) =
      l.filter (fun p => p.1 != k) := by
  induction l with
  | nil => rfl
  | cons a l ih =>
    by_cases hb : a.1 = k
    · simpa [List.filter_cons, hb] using ih
    · simpa [List.filter_cons, hb] using ih

/-! ## Cache lemmas -/

theorem LRUCache.moveToEnd_maxSize (c : LRUCache α) (k : String) :
    (c.moveToEnd k).maxSize = c.maxSize := by
  unfold LRUCache.moveToEnd
  split <;> rfl

theorem LRUCache.moveToEnd_ttl (c : LRUCache α) (k : String) :
    (c.moveToEnd k).ttlSeconds = c.ttlSeconds := by
  unfold LRUCache.moveToEnd
  split <;> rfl

theorem LRUCache.evictLRU_maxSize (c : LRUCache α) :
    c.evictLRU.maxSize = c.maxSize := by
  unfold LRUCache.evictLRU
  split <;> rfl

theorem LRUCache.evictLRU_ttl (c : LRUCache α) :
    c.evictLRU.ttlSeconds = c.ttlSeconds := by
  unfold LRUCache.evictLRU
  split <;> rfl

theorem LRUCache.put_maxSize (c : LRUCache α) (k : String) (v : α) (t : Int) :
    (c.put k v t).maxSize = c.maxSize := by
  unfold LRUCache.put
  split
  · rw [LRUCache.moveToEnd_maxSize]; rfl
  · show (if c.entries.length ≥ c.maxSize then c.evictLRU else c).maxSize = c.maxSize
    split
    · exact c.evictLRU_maxSize
    · rfl

theorem LRUCache.put_ttl (c : LRUCache α) (k : String) (v : α) (t : Int) :
    (c.put k v t).ttlSeconds = c.ttlSeconds := by
  unfold LRUCache.put
  split
  · rw [LRUCache.moveToEnd_ttl]; rfl
  · show (if c.entries.length ≥ c.maxSize then c.evictLRU else c).ttlSeconds = c.ttlSeconds
    split
    · exact c.evictLRU_ttl
    · rfl

theorem LRUCache.findEntry_moveToEnd {c : LRUCache α} {key : String}
    {p : String × CacheEntry α}
    (h : c.entries.find? (fun q => q.1 == key) = some p) :
    (c.moveToEnd key).findEntry key = some p.2 := by
  have hp0 := List.find?_some h
  have hp : (p.1 == key) = true := hp0
  unfold LRUCache.moveToEnd
  rw [h]
  unfold LRUCache.findEntry
  rw [find?_append_of_none (find?_filter_ne c.entries key)]
  simp [List.find?, hp]

theorem LRUCache.size_put_le (c : LRUCache α) (key : String) (v : α) (t : Int)
    (hpos : 1 ≤ c.maxSize) (hle : c.size ≤ c.maxSize) :
    (c.put key v t).size ≤ c.maxSize := by
  unfold LRUCache.put
  by_cases hc : c.containsKey key
  · have hfind : (c.entries.find? (fun p => p.1 == key)).isSome = true := hc
    have hrepl := find?_map_replace (l := c.entries) (k := key)
      ({ value := v, createdAt := t } : CacheEntry α) hfind
    have hlt := length_filter_lt_of_find? hfind
    simp only [hc, if_true]
    unfold LRUCache.moveToEnd
    rw [show (c.updateEntry key { value := v, createdAt := t }).entries
        = c.entries.map
            (fun p => if p.1 == key then (key, { value := v, createdAt := t }) else p)
      from rfl]
    rw [hrepl]
    show (List.filter _ _ ++ [(key, _)]).length ≤ c.maxSize
    rw [filter_map_replace, List.length_append]
    simp only [List.length_cons, List.length_nil]
    have : c.entries.length ≤ c.maxSize := hle
    omega
  · simp only [hc, if_false, Bool.false_eq_true]
    by_cases hlen : c.entries.length ≥ c.maxSize
    · have heq : c.entries.length = c.maxSize := Nat.le_antisymm hle hlen
      obtain ⟨p, rest, hE⟩ : ∃ p rest, c.entries = p :: rest := by
        cases hE2 : c.entries with
        | nil =>
          rw [hE2] at heq
          simp at heq
          omega
        | cons p rest => exact ⟨p, rest, rfl⟩
      have hfind : ((p :: rest).find? (fun q => q.1 == p.1)).isSome = true := by
        simp [List.find?]
      have hlt := length_filter_lt_of_find? hfind
      show ((if c.entries.length ≥ c.maxSize then c.evictLRU else c).entries
          ++ [(key, ({ value := v, createdAt := t } : CacheEntry α))]).length
          ≤ c.maxSize
      rw [if_pos hlen]
      have hev : c.evictLRU.entries = (p :: rest).filter (fun q => q.1 != p.1) := by
        simp [LRUCache.evictLRU, LRUCache.removeKey, hE]
      rw [hev, List.length_append]
      have heq2 : rest.length + 1 = c.maxSize := by
        rw [hE] at heq
        simpa using heq
      have hlt2 : ((p :: rest).filter (fun q => q.1 != p.1)).length < rest.length + 1 := by
        simpa using hlt
      simp only [List.length_cons, List.length_nil]
      omega
    · show ((if c.entries.length ≥ c.maxSize then c.evictLRU else c).entries
          ++ [(key, ({ value := v, createdAt := t } : CacheEntry α))]).length
          ≤ c.maxSize
      rw [if_neg hlen, List.length_append]
      simp only [List.length_cons, List.length_nil]
      omega

theorem LRUCache.runPuts_size_le (ops : List (String × α × Int)) :
    ∀ c : LRUCache α, 1 ≤ c.maxSize → c.size ≤ c.maxSize →
      (c.runPuts ops).size ≤ c.maxSize := by
  induction ops with
  | nil => exact fun _ _ h2 => h2
  | cons op ops ih =>
    intro c h1 h2
    obtain ⟨k, v, t⟩ := op
    have hmax := c.put_maxSize k v t
    have hstep := c.size_put_le k v t h1 h2
    have := ih (c.put k v t) (hmax ▸ h1) (hmax ▸ hstep)
    rw [hmax] at this
    exact this

theorem LRUCache.init_maxSize_pos (mo : Option Nat) (t₀ : Option Int) :
    1 ≤ (LRUCache.init α mo t₀).maxSize := by
  match mo with
  | none => simp [LRUCache.init, cacheMaxSizeDefault]
  | some 0 => simp [LRUCache.init, cacheMaxSizeDefault]
  | some (n + 1) => simp [LRUCache.init]

/-! ## Theorems -/

/-- C4: classification precedence and totality — `get_asset_type`
decides in the fixed order forex (suffix `=X`), index (prefix `^` or
known index set), crypto (known crypto set), default stock; it is a
total function, so every input gets exactly one category and repeated
calls agree; and the four sample symbols classify as stated. -/
theorem c4_classification_precedence :
    (∀ s : String,
      (get_asset_type s = .forex ↔ is_forex_pair s = true)
      ∧ (get_asset_type s = .index ↔ (is_forex_pair s = false ∧ is_index s = true))
      ∧ (get_asset_type s = .crypto ↔
          (is_forex_pair s = false ∧ is_index s = false ∧ is_crypto s = true))
      ∧ (get_asset_type s = .stock ↔
          (is_forex_pair s = false ∧ is_index s = false ∧ is_crypto s = false)))
    ∧ get_asset_type "USDJPY=X" = .forex
    ∧ get_asset_type "^GSPC" = .index
    ∧ get_asset_type "BTC-USD" = .crypto
    ∧ get_asset_type "AAPL" = .stock := by
  refine ⟨fun s => ?_, by decide, by decide, by decide, by decide⟩
  unfold get_asset_type
  cases hf : is_forex_pair s <;> cases hi : is_index s <;>
    cases hc : is_crypto s <;> simp

/-- C5: handler table correctness — for every asset category the
dispatched handler has `volume_metric_key` absent exactly for forex and
`market_cap_metric_key` absent exactly for forex and index, its
`update_volume` gate is false only for forex, and its
`update_market_metrics` gate is false exactly for forex and index. -/
theorem c5_handler_table_correct :
    ∀ t : AssetType, ∃ h : AssetHandler,
      get_handler (.known t) = .ok h
      ∧ (h.volume_metric_key = none ↔ t = .forex)
      ∧ (h.market_cap_metric_key = none ↔ (t = .forex ∨ t = .index))
      ∧ (h.update_volume = false ↔ t = .forex)
      ∧ (h.update_market_metrics = false ↔ (t = .forex ∨ t = .index)) := by
  intro t
  cases t <;> exact ⟨_, rfl, by decide, by decide, by decide, by decide⟩

/-- C9: unsupported category dispatch — each of the four known
categories resolves to its handler without error, and any value that is
not a member of the enumeration makes `get_handler` raise the
`ValueError` (no silent default). -/
theorem c9_unsupported_dispatch :
    get_handler (.known .stock) = .ok stockHandler
    ∧ get_handler (.known .forex) = .ok forexHandler
    ∧ get_handler (.known .index) = .ok indexHandler
    ∧ get_handler (.known .crypto) = .ok cryptoHandler
    ∧ ∀ printed : String,
        get_handler (.unknown printed) =
          .error ("Unsupported asset type: " ++ printed) :=
  ⟨rfl, rfl, rfl, rfl, fun _ => rfl⟩

/-- C8: unregister idempotence — after `unregister_all_metrics` the
metric map is empty, and a second call (in particular, a call on the
already-empty registry it produced) is a no-op that cannot fail: it
returns the same state, with the metric map still empty. -/
theorem c8_unregister_idempotent :
    ∀ s : MetricsFactoryState,
      (unregister_all_metrics s).metrics = []
      ∧ unregister_all_metrics (unregister_all_metrics s) =
          unregister_all_metrics s := by
  intro s
  exact ⟨rfl, rfl⟩

/-- A configuration with range metrics disabled and debug metrics
enabled (the repository test suite exercises exactly this setting). -/
def rangeOffDebugOn : AppConfig :=
  { ENABLE_RANGE_METRICS := some false, ENABLE_DEBUG_METRICS := some true }

/-- C3 counterexample: `stock_52week_high` is a definition of the
configuration table whose name does not match the debug pattern, yet
with `ENABLE_RANGE_METRICS = false` (and debug metrics enabled)
`_should_create_metric` rejects it — so not every non-debug definition
is created regardless of other flags. -/
theorem c3_flag_rule_counterexample :
    should_create_metric (some rangeOffDebugOn) "stock_52week_high" = false
    ∧ (strContains "stock_52week_high" "fetch_duration"
        || strContains "stock_52week_high" "fetch_errors") = false
    ∧ defaultGauges.any (fun d => d.name == "stock_52week_high") = true := by
  decide

/-- C3 (amended): during metric construction, definitions whose name
matches the 52-week range pattern are gated by `ENABLE_RANGE_METRICS`,
definitions whose name matches the debug pattern (fetch-duration /
fetch-errors family, and not the range pattern) are gated by
`ENABLE_DEBUG_METRICS`, every definition matching neither pattern is
always created, and with no app config at all every definition is
created. -/
theorem c3_flag_rule_amended (cfg : AppConfig) (name : String) :
    should_create_metric none name = true
    ∧ ((strContains name "52week_high" || strContains name "52week_low") = true →
        should_create_metric (some cfg) name = cfg.ENABLE_RANGE_METRICS.getD true)
    ∧ ((strContains name "52week_high" || strContains name "52week_low") = false →
        (strContains name "fetch_duration" || strContains name "fetch_errors") = true →
        should_create_metric (some cfg) name = cfg.ENABLE_DEBUG_METRICS.getD true)
    ∧ ((strContains name "52week_high" || strContains name "52week_low") = false →
        (strContains name "fetch_duration" || strContains name "fetch_errors") = false →
        should_create_metric (some cfg) name = true) := by
  refine ⟨rfl, fun hr => ?_, fun hr hd => ?_, fun hr hd => ?_⟩
  · simp [should_create_metric, hr]
  · simp [should_create_metric, hr, hd]
  · simp [should_create_metric, hr, hd]

/-- C3 witness: the amended rule evaluated at concrete flag settings
and concrete metric names from the configuration table. -/
theorem c3_flag_rule_amended_witness :
    should_create_metric (some rangeOffDebugOn) "stock_52week_high" = false
    ∧ should_create_metric
        (some { ENABLE_RANGE_METRICS := some true, ENABLE_DEBUG_METRICS := some false })
        "stock_fetch_errors_total" = false
    ∧ should_create_metric (some rangeOffDebugOn) "stock_price_current" = true := by
  refine ⟨?_, ?_, ?_⟩
  · have h := (c3_flag_rule_amended rangeOffDebugOn "stock_52week_high").2.1 (by decide)
    simpa using h
  · have h := (c3_flag_rule_amended
      { ENABLE_RANGE_METRICS := some true, ENABLE_DEBUG_METRICS := some false }
      "stock_fetch_errors_total").2.2.1 (by decide) (by decide)
    simpa using h
  · exact (c3_flag_rule_amended rangeOffDebugOn "stock_price_current").2.2.2
      (by decide) (by decide)

/-- The registry built with debug metrics disabled and range metrics
enabled. -/
def factoryDebugOff : MetricsFactoryState :=
  metricsFactoryInit DEFAULT_METRICS_CONFIG
    (some { ENABLE_RANGE_METRICS := some true, ENABLE_DEBUG_METRICS := some false })

/-- The registry built with both debug and range metrics disabled. -/
def factoryDebugOffRangeOff : MetricsFactoryState :=
  metricsFactoryInit DEFAULT_METRICS_CONFIG
    (some { ENABLE_RANGE_METRICS := some false, ENABLE_DEBUG_METRICS := some false })

/-- C6 counterexample: a registry built with `ENABLE_DEBUG_METRICS =
false` (and `ENABLE_RANGE_METRICS = false`) drops the table key
`stock_52week_high`, whose definition name does not match the debug
pattern — so under the claim as stated (only the debug flag fixed) a
non-debug key of the configuration table can be absent. -/
theorem c6_flag_lookup_counterexample :
    get_metric factoryDebugOffRangeOff "stock_52week_high" = none
    ∧ defaultGauges.any (fun d =>
        d.key == "stock_52week_high"
        && !(strContains d.name "fetch_duration"
             || strContains d.name "fetch_errors")) = true := by
  set_option maxRecDepth 100000 in decide

/-- C6 (amended): when the registry is built with
`ENABLE_DEBUG_METRICS = false` and `ENABLE_RANGE_METRICS = true`,
`get_metric "financial_fetch_duration"` and
`get_metric "financial_fetch_errors"` both return absent, and every key
of the configuration table whose definition name does not match the
debug pattern remains present. -/
theorem c6_flag_lookup_amended :
    get_metric factoryDebugOff "financial_fetch_duration" = none
    ∧ get_metric factoryDebugOff "financial_fetch_errors" = none
    ∧ (defaultGauges ++ defaultCounters ++ defaultHistograms).all
        (fun d =>
          (strContains d.name "fetch_duration" || strContains d.name "fetch_errors")
          || (get_metric factoryDebugOff d.key).isSome) = true := by
  set_option maxRecDepth 100000 in decide

/-- C1: capacity invariant — for every sequence of `put` operations on
a cache built by the constructor, the stored-entry count never exceeds
the configured `max_size`; and a `put` of a new key on a cache at
capacity (with the well-formedness the constructor guarantees: positive
capacity and distinct keys) removes exactly the least-recently-used
entry — the head of the recency order — and appends the new entry. -/
theorem c1_capacity_and_lru_eviction {α : Type} :
    (∀ (maxSize : Option Nat) (ttl : Option Int) (ops : List (String × α × Int)),
      ((LRUCache.init α maxSize ttl).runPuts ops).size
        ≤ (LRUCache.init α maxSize ttl).maxSize)
    ∧ (∀ (c : LRUCache α) (key : String) (v : α) (t : Int),
        c.containsKey key = false →
        c.size = c.maxSize →
        1 ≤ c.maxSize →
        (c.entries.map Prod.fst).Nodup →
        (c.put key v t).entries
          = c.entries.tail ++ [(key, { value := v, createdAt := t })]) := by
  constructor
  · intro maxSize ttl ops
    exact LRUCache.runPuts_size_le ops _ (LRUCache.init_maxSize_pos maxSize ttl)
      (Nat.zero_le _)
  · intro c key v t hc hsz hpos hnd
    unfold LRUCache.put
    rw [hc]
    simp only [Bool.false_eq_true, if_false]
    have hlen : c.entries.length ≥ c.maxSize := le_of_eq hsz.symm
    obtain ⟨p, rest, hE⟩ : ∃ p rest, c.entries = p :: rest := by
      have hsz2 : c.entries.length = c.maxSize := hsz
      cases hE2 : c.entries with
      | nil =>
        rw [hE2] at hsz2
        simp at hsz2
        omega
      | cons p rest => exact ⟨p, rest, rfl⟩
    show (if c.entries.length ≥ c.maxSize then c.evictLRU else c).entries
        ++ [(key, ({ value := v, createdAt := t } : CacheEntry α))]
        = c.entries.tail ++ [(key, ({ value := v, createdAt := t } : CacheEntry α))]
    rw [if_pos hlen]
    have hnotin : ∀ q ∈ rest, ¬(q.1 = p.1) := by
      intro q hq
      rw [hE] at hnd
      simp only [List.map_cons, List.nodup_cons] at hnd
      intro hqp
      exact hnd.1 (hqp ▸ List.mem_map_of_mem Prod.fst hq)
    have hev : c.evictLRU.entries = rest := by
      simp only [LRUCache.evictLRU, LRUCache.removeKey, hE]
      rw [List.filter_cons]
      simp only [bne_self_eq_false, Bool.false_eq_true, if_false]
      exact List.filter_eq_self.mpr (fun q hq => by simpa using hnotin q hq)
    rw [hev, hE]
    rfl

/-- C1 witness: the capacity bound on a concrete three-put run over a
capacity-2 cache, and the eviction equation on a concrete full cache. -/
theorem c1_capacity_and_lru_eviction_witness :
    ((LRUCache.init Nat (some 2) (some 1)).runPuts
        [("AAPL", 1, 0), ("GOOGL", 2, 1), ("MSFT", 3, 2)]).size
      ≤ (LRUCache.init Nat (some 2) (some 1)).maxSize
    ∧ ((⟨2, 600, [("AAPL", ⟨1, 0⟩), ("GOOGL", ⟨2, 1⟩)]⟩ : LRUCache Nat).put
          "MSFT" 3 2).entries
      = [("GOOGL", ⟨2, 1⟩), ("MSFT", ⟨3, 2⟩)] := by
  constructor
  · exact c1_capacity_and_lru_eviction.1 (some 2) (some 1)
      [("AAPL", 1, 0), ("GOOGL", 2, 1), ("MSFT", 3, 2)]
  · have h := c1_capacity_and_lru_eviction.2
      (⟨2, 600, [("AAPL", ⟨1, 0⟩), ("GOOGL", ⟨2, 1⟩)]⟩ : LRUCache Nat)
      "MSFT" 3 2 (by decide) (by decide) (by decide) (by decide)
    simpa using h

/-- C2: TTL invariant — `get` of an absent key is a miss (and leaves
the cache unchanged); `get` of a present key is a miss exactly when
`now - created_at > ttl_seconds`; and a `get` that hits an expired
entry physically removes it from the cache. -/
theorem c2_ttl_expiry {α : Type} (c : LRUCache α) (key : String) (now : Int) :
    (c.findEntry key = none → c.get key now = (none, c))
    ∧ (∀ e : CacheEntry α, c.findEntry key = some e →
        (((c.get key now).1 = none) ↔ now - e.createdAt > c.ttlSeconds))
    ∧ (∀ e : CacheEntry α, c.findEntry key = some e →
        now - e.createdAt > c.ttlSeconds →
        ((c.get key now).2.findEntry key = none)) := by
  refine ⟨fun h => ?_, fun e he => ?_, fun e he hexp => ?_⟩
  · have hfind : c.entries.find? (fun p => p.1 == key) = none := by
      unfold LRUCache.findEntry at h
      exact Option.map_eq_none'.mp h
    have hcont : c.containsKey key = false := by
      unfold LRUCache.containsKey
      rw [hfind]
      rfl
    unfold LRUCache.get
    rw [hcont]
    simp
  · obtain ⟨p, hp, hpe⟩ : ∃ p, c.entries.find? (fun q => q.1 == key) = some p ∧ p.2 = e := by
      unfold LRUCache.findEntry at he
      obtain ⟨p, hp1, hp2⟩ := Option.map_eq_some'.mp he
      exact ⟨p, hp1, hp2⟩
    have hcont : c.containsKey key = true := by
      unfold LRUCache.containsKey
      rw [hp]
      rfl
    have hexpeq : c.isExpired key now = decide (now - e.createdAt > c.ttlSeconds) := by
      unfold LRUCache.isExpired LRUCache.findEntry
      rw [hp]
      simp [hpe]
    unfold LRUCache.get
    rw [hcont]
    by_cases hx : now - e.createdAt > c.ttlSeconds
    · rw [hexpeq]
      simp [hx]
    · rw [hexpeq, decide_eq_false hx]
      simp only [Bool.false_eq_true, if_false]
      have hme := LRUCache.findEntry_moveToEnd hp
      simp [hme, hx]
  · obtain ⟨p, hp, hpe⟩ : ∃ p, c.entries.find? (fun q => q.1 == key) = some p ∧ p.2 = e := by
      unfold LRUCache.findEntry at he
      obtain ⟨p, hp1, hp2⟩ := Option.map_eq_some'.mp he
      exact ⟨p, hp1, hp2⟩
    have hcont : c.containsKey key = true := by
      unfold LRUCache.containsKey
      rw [hp]
      rfl
    have hexpeq : c.isExpired key now = true := by
      unfold LRUCache.isExpired LRUCache.findEntry
      rw [hp]
      simp [hpe, hexp]
    unfold LRUCache.get
    rw [hcont, hexpeq]
    simp only [if_true]
    unfold LRUCache.findEntry LRUCache.removeKey
    rw [find?_filter_ne]
    rfl

/-- C2 witness: on a concrete cache holding one entry created at time
0 with a TTL of 600, a `get` at time 601 misses and removes the entry. -/
theorem c2_ttl_expiry_witness :
    ((⟨100, 600, [("AAPL", ⟨7, 0⟩)]⟩ : LRUCache Nat).get "AAPL" 601).1 = none
    ∧ ((⟨100, 600, [("AAPL", ⟨7, 0⟩)]⟩ : LRUCache Nat).get "AAPL" 601).2.findEntry
        "AAPL" = none := by
  have h := c2_ttl_expiry (⟨100, 600, [("AAPL", ⟨7, 0⟩)]⟩ : LRUCache Nat) "AAPL" 601
  exact ⟨(h.2.1 ⟨7, 0⟩ (by decide)).mpr (by decide),
    h.2.2 ⟨7, 0⟩ (by decide) (by decide)⟩

/-- C10: overwrite refreshes TTL — a `put` on a key already present
replaces the entry by one carrying the new value and `created_at` equal
to the time of the `put`, moves it to the most-recently-used position,
and afterwards the entry is expired at time `now` exactly when
`now - t > ttl_seconds` for the put time `t`, independent of the old
entry's age. -/
theorem c10_put_refreshes_ttl {α : Type} (c : LRUCache α) (key : String) (v : α)
    (t : Int) (e₀ : CacheEntry α) (h : c.findEntry key = some e₀) :
    (c.put key v t).entries
      = c.entries.filter (fun p => p.1 != key)
          ++ [(key, { value := v, createdAt := t })]
    ∧ (c.put key v t).findEntry key = some { value := v, createdAt := t }
    ∧ (c.put key v t).ttlSeconds = c.ttlSeconds
    ∧ ∀ now : Int,
        ((c.put key v t).isExpired key now = true ↔ now - t > c.ttlSeconds) := by
  obtain ⟨p, hp, hpe⟩ : ∃ p, c.entries.find? (fun q => q.1 == key) = some p ∧ p.2 = e₀ := by
    unfold LRUCache.findEntry at h
    obtain ⟨p, hp1, hp2⟩ := Option.map_eq_some'.mp h
    exact ⟨p, hp1, hp2⟩
  have hcont : c.containsKey key = true := by
    unfold LRUCache.containsKey
    rw [hp]
    rfl
  have hisSome : (c.entries.find? (fun q => q.1 == key)).isSome = true := by
    rw [hp]
    rfl
  have hrepl := find?_map_replace (l := c.entries) (k := key)
    ({ value := v, createdAt := t } : CacheEntry α) hisSome
  have hput : (c.put key v t).entries
      = c.entries.filter (fun p => p.1 != key)
          ++ [(key, ({ value := v, createdAt := t } : CacheEntry α))] := by
    unfold LRUCache.put
    rw [hcont]
    simp only [if_true]
    unfold LRUCache.moveToEnd LRUCache.updateEntry
    simp only []
    rw [hrepl, filter_map_replace]
  have hfind : (c.put key v t).findEntry key
      = some ({ value := v, createdAt := t } : CacheEntry α) := by
    unfold LRUCache.findEntry
    rw [hput, find?_append_of_none (find?_filter_ne c.entries key)]
    simp [List.find?]
  refine ⟨hput, hfind, c.put_ttl key v t, fun now => ?_⟩
  unfold LRUCache.isExpired
  rw [hfind, c.put_ttl key v t]
  simp

/-- C10 witness: overwriting the entry of a concrete cache restarts its
TTL clock at the put time. -/
theorem c10_put_refreshes_ttl_witness :
    ((⟨100, 600, [("AAPL", ⟨7, 0⟩)]⟩ : LRUCache Nat).put "AAPL" 9 50).findEntry
        "AAPL" = some ⟨9, 50⟩
    ∧ ((⟨100, 600, [("AAPL", ⟨7, 0⟩)]⟩ : LRUCache Nat).put "AAPL" 9 50).isExpired
        "AAPL" 651 = true := by
  have h := c10_put_refreshes_ttl (⟨100, 600, [("AAPL", ⟨7, 0⟩)]⟩ : LRUCache Nat)
    "AAPL" 9 50 ⟨7, 0⟩ (by decide)
  exact ⟨h.2.1, (h.2.2.2 651).mpr (by decide)⟩

/-! ## Metrics-factory lemmas for the recreate round-trip -/

/-- The key list produced by one dict insertion, ignoring instrument
identities. -/
def insertKeyList (keys : List String) (k : String) : List String :=
  if keys.any (fun x => x == k) then keys else keys ++ [k]

/-- The key list produced by one construction loop over a section of
the configuration table, ignoring instrument identities. -/
def keyFold (appCfg : Option AppConfig) : List MetricDefinition → List String → List String
  | [], keys => keys
  | d :: rest, keys =>
    if should_create_metric appCfg d.name then
      keyFold appCfg rest (insertKeyList keys d.key)
    else keyFold appCfg rest keys

theorem find?_isSome_eq_any (metrics : List (String × MetricInstrument)) (k : String) :
    (metrics.find? (fun p => p.1 == k)).isSome
      = (metrics.map Prod.fst).any (fun x => x == k) := by
  induction metrics with
  | nil => rfl
  | cons a l ih =>
    cases hb : (a.1 == k) with
    | true =>
      simp only [List.find?, hb, List.map_cons, List.any_cons, Bool.true_or]
      rfl
    | false =>
      simp only [List.find?, hb, List.map_cons, List.any_cons, Bool.false_or]
      exact ih

theorem map_fst_map_replace (metrics : List (String × MetricInstrument))
    (k : String) (m : MetricInstrument) :
    (metrics.map (fun p => if p.1 == k then (k, m) else p)).map Prod.fst
      = metrics.map Prod.fst := by
  induction metrics with
  | nil => rfl
  | cons a l ih =>
    by_cases hb : a.1 = k
    · simpa [hb] using ih
    · simpa [hb] using ih

theorem map_fst_insertMetric (metrics : List (String × MetricInstrument))
    (k : String) (m : MetricInstrument) :
    (insertMetric metrics k m).map Prod.fst
      = insertKeyList (metrics.map Prod.fst) k := by
  unfold insertMetric insertKeyList
  rw [find?_isSome_eq_any]
  by_cases hb : (metrics.map Prod.fst).any (fun x => x == k) = true
  · rw [if_pos hb, if_pos hb]
    exact map_fst_map_replace metrics k m
  · rw [if_neg hb, if_neg hb]
    simp

theorem createFrom_app_config (defs : List MetricDefinition) :
    ∀ (s : MetricsFactoryState) (kind : MetricKind),
      (createFrom s kind defs).app_config = s.app_config := by
  induction defs with
  | nil => intro s kind; rfl
  | cons d rest ih =>
    intro s kind
    unfold createFrom
    by_cases hcr : should_create_metric s.app_config d.name = true
    · rw [if_pos hcr, ih]
    · rw [if_neg hcr, ih]

theorem createFrom_config (defs : List MetricDefinition) :
    ∀ (s : MetricsFactoryState) (kind : MetricKind),
      (createFrom s kind defs).config = s.config := by
  induction defs with
  | nil => intro s kind; rfl
  | cons d rest ih =>
    intro s kind
    unfold createFrom
    by_cases hcr : should_create_metric s.app_config d.name = true
    · rw [if_pos hcr, ih]
    · rw [if_neg hcr, ih]

theorem createFrom_keys (defs : List MetricDefinition) :
    ∀ (s : MetricsFactoryState) (kind : MetricKind),
      (createFrom s kind defs).metrics.map Prod.fst
        = keyFold s.app_config defs (s.metrics.map Prod.fst) := by
  induction defs with
  | nil => intro s kind; rfl
  | cons d rest ih =>
    intro s kind
    unfold createFrom keyFold
    by_cases hcr : should_create_metric s.app_config d.name = true
    · rw [if_pos hcr, if_pos hcr, ih]
      rw [map_fst_insertMetric]
    · rw [if_neg hcr, if_neg hcr, ih]

/-- The three construction passes, summarized on key lists. -/
theorem create_metrics_keys (s : MetricsFactoryState) :
    (create_metrics s).metrics.map Prod.fst
      = keyFold s.app_config s.config.histograms
          (keyFold s.app_config s.config.counters
            (keyFold s.app_config s.config.gauges (s.metrics.map Prod.fst))) := by
  unfold create_metrics
  rw [createFrom_keys, createFrom_keys, createFrom_keys]
  simp only [createFrom_app_config, createFrom_config]

theorem create_metrics_app_config (s : MetricsFactoryState) :
    (create_metrics s).app_config = s.app_config := by
  unfold create_metrics
  rw [createFrom_app_config, createFrom_app_config, createFrom_app_config]

theorem create_metrics_config (s : MetricsFactoryState) :
    (create_metrics s).config = s.config := by
  unfold create_metrics
  rw [createFrom_config, createFrom_config, createFrom_config]

/-- C7: recreate round-trip — for every configuration table and flag
setting, `recreate_metrics` applied to a freshly constructed factory
produces exactly the key list of the original construction (so in
particular the same key set), even though the instrument identities are
rebuilt. -/
theorem c7_recreate_same_keys (config : MetricsConfig) (app_config : Option AppConfig) :
    (recreate_metrics (metricsFactoryInit config app_config)).metrics.map Prod.fst
      = (metricsFactoryInit config app_config).metrics.map Prod.fst := by
  unfold recreate_metrics metricsFactoryInit
  rw [create_metrics_keys, create_metrics_keys]
  have happ : ∀ s : MetricsFactoryState,
      (unregister_all_metrics s).app_config = s.app_config := fun _ => rfl
  have hcfg : ∀ s : MetricsFactoryState,
      (unregister_all_metrics s).config = s.config := fun _ => rfl
  have hmet : ∀ s : MetricsFactoryState,
      (unregister_all_metrics s).metrics = [] := fun _ => rfl
  rw [happ, hcfg, hmet]
  rw [create_metrics_app_config, create_metrics_config]

end StockValue
